import Mathlib

/-!
Verification of the MySQL-compatible wire-protocol server (sql-protocol).

The Rust sources are shallowly embedded: byte streams are `List Nat`
(each element is a byte value 0..255 produced by `% 256` where the source
truncates), machine integers are `Nat` with explicit `% 2^w` at the points
where the source truncates, fallible reads return `Except ProtoError`,
and Rust panics are modelled by an explicit `Outcome.panic` constructor.
The `Packets` struct carries the per-connection framer state; the write
half of its stream is the `out` byte list, the read half is passed as an
explicit `input` list.
-/

namespace SqlProtocol

/-! ### Constants (src/constants.rs) -/

/-- MAX_PACKET_SIZE is the maximum payload length of a packet the server
supports (`(1 << 24) - 1` in src/constants.rs). -/
def MAX_PACKET_SIZE : Nat := (1 <<< 24) - 1

/-- `pub const OK_PACKET: u8 = 0x00` -/
def OK_PACKET : Nat := 0x00

/-- `pub const ERR_PACKET: u8 = 0xff` -/
def ERR_PACKET : Nat := 0xff

/-- `pub const EOF_PACKET: u8 = 0xff` — note: the source sets this to 0xff,
identical to ERR_PACKET, not to the MySQL EOF header 0xfe. -/
def EOF_PACKET : Nat := 0xff

/-- `pub const SERVER_MORE_RESULTS_EXISTS: u16 = 0x0008` -/
def SERVER_MORE_RESULTS_EXISTS : Nat := 0x0008

/-- Capability flag bits (enum CapabilityFlag in src/constants.rs). -/
def CapabilityClientFoundRows : Nat := 1 <<< 1
def CapabilityClientConnectWithDB : Nat := 1 <<< 3
def CapabilityClientProtocol41 : Nat := 1 <<< 9
def CapabilityClientSecureConnection : Nat := 1 <<< 15
def CapabilityClientMultiStatements : Nat := 1 <<< 16
def CapabilityClientPluginAuth : Nat := 1 <<< 19
def CapabilityClientPluginAuthLenencClientData : Nat := 1 <<< 21
def CapabilityClientConnAttr : Nat := 1 <<< 20
def CapabilityClientDeprecateEOF : Nat := 1 <<< 24

/-- Error codes used by the dispatcher (enum ServerError). -/
def ERUnknownComError : Nat := 1047
def ERUnknownError : Nat := 1105

/-! ### Errors (src/errors.rs).  `Io` stands for any `std::io::Error`
converted through `From<io::Error>`; the remaining constructors are the
`ProtoError` variants the embedded code can produce. -/

inductive ProtoError where
  | Io
  | ReadClientFlagError
  | ProtocolNotSupport
  | ReadMaxPacketSizeError
  | ReadCharsetError
  | ReadZeroError
  | ReadUserError
  | ReadAuthResponseError
  | ReadAuthResponseLengthError
  | ReadDatabaseError
  | ReadPluginError
  | EmptyPacketError
  | MultiPacketNotSupport
  | ComQuit
  deriving DecidableEq, Repr

/-! ### Length-encoded integer codec (trait WriteLenEncode and
len_enc_int_size in src/proto/packets.rs) -/

/-- Little-endian u16 byte pair (`write_u16::<LittleEndian>`). -/
def u16le (v : Nat) : List Nat := [v % 256, v / 256 % 256]

/-- Little-endian u32 bytes (`write_u32::<LittleEndian>`). -/
def u32le (v : Nat) : List Nat :=
  [v % 256, v / 256 % 256, v / 65536 % 256, v / 16777216 % 256]

/-- Little-endian u64 bytes (`write_u64::<LittleEndian>`). -/
def u64le (v : Nat) : List Nat :=
  [v % 256, v / 2 ^ 8 % 256, v / 2 ^ 16 % 256, v / 2 ^ 24 % 256,
   v / 2 ^ 32 % 256, v / 2 ^ 40 % 256, v / 2 ^ 48 % 256, v / 2 ^ 56 % 256]

/-- `write_len_int` from impl WriteLenEncode for Vec<u8>: the bytes pushed
for one length-encoded integer. -/
def write_len_int (value : Nat) : List Nat :=
  if value < 251 then [value % 256]
  else if value < 1 <<< 16 then 0xfc :: u16le value
  else if value < 1 <<< 24 then 0xfd :: [value % 256, value / 256 % 256, value / 65536 % 256]
  else 0xfe :: u64le value

/-- `write_len_str`: length-encoded string = lenenc length then raw bytes. -/
def write_len_str (s : List Nat) : List Nat := write_len_int s.length ++ s

/-- `len_enc_int_size` in src/proto/packets.rs. -/
def len_enc_int_size (n : Nat) : Nat :=
  if n < 251 then 1
  else if n < 1 <<< 16 then 3
  else if n < 1 <<< 24 then 4
  else 9

/-- `len_enc_str_size` in src/proto/packets.rs. -/
def len_enc_str_size (v : List Nat) : Nat := len_enc_int_size v.length + v.length

/-! ### Packet framing (src/proto/packets.rs) -/

/-- The 4-byte frame header built inside `write_packet`:
`length[3] little-endian || sequence_id`. -/
def mkHeader (pkg_len seq : Nat) : List Nat :=
  [pkg_len % 256, pkg_len / 256 % 256, pkg_len / 65536 % 256, seq % 256]

/-- The loop body of `write_packet`: splits `data` into chunks of at most
MAX_PACKET_SIZE bytes, each preceded by its header; after a final chunk of
exactly MAX_PACKET_SIZE bytes an empty trailer frame is emitted.  Returns
the final sequence_id and the emitted bytes.  The Rust loop is translated
by case analysis on the remaining length against MAX_PACKET_SIZE. -/
def write_packet_loop : Nat → Nat → List Nat → Nat × List Nat
  | 0, seq, _ => (seq, [])
  | fuel + 1, seq, data =>
    if MAX_PACKET_SIZE < data.length then
      -- pkg_len = MAX_PACKET_SIZE, remaining length nonzero: loop again
      let r := write_packet_loop fuel (seq + 1) (data.drop MAX_PACKET_SIZE)
      (r.1, mkHeader MAX_PACKET_SIZE seq ++ data.take MAX_PACKET_SIZE ++ r.2)
    else if data.length = MAX_PACKET_SIZE then
      -- final chunk of exactly MAX_PACKET_SIZE bytes: empty trailer frame
      (seq + 2, mkHeader MAX_PACKET_SIZE seq ++ data ++ [0, 0, 0, (seq + 1) % 256])
    else
      (seq + 1, mkHeader data.length seq ++ data)

/-- Entry point of the loop.  `data.length + 1` rounds of fuel always
suffice: every round consumes MAX_PACKET_SIZE ≥ 1 bytes of `data`. -/
def write_packet_go (seq : Nat) (data : List Nat) : Nat × List Nat :=
  write_packet_loop (data.length + 1) seq data

theorem write_packet_loop_congr (n : Nat) : ∀ (data : List Nat) (f1 f2 seq : Nat),
    data.length = n → n < f1 → n < f2 →
    write_packet_loop f1 seq data = write_packet_loop f2 seq data := by
  induction n using Nat.strong_induction_on with
  | _ n ih =>
    intro data f1 f2 seq hlen h1 h2
    match f1, f2 with
    | 0, _ => omega
    | _ + 1, 0 => omega
    | fa + 1, fb + 1 =>
      show write_packet_loop (fa + 1) seq data = write_packet_loop (fb + 1) seq data
      unfold write_packet_loop
      by_cases hbig : MAX_PACKET_SIZE < data.length
      · simp only [if_pos hbig]
        have hm1 : 0 < MAX_PACKET_SIZE := by decide
        have hdl : (data.drop MAX_PACKET_SIZE).length = n - MAX_PACKET_SIZE := by
          simp [hlen]
        rw [ih (n - MAX_PACKET_SIZE) (by omega) (data.drop MAX_PACKET_SIZE) fa fb
          (seq + 1) hdl (by omega) (by omega)]
      · simp only [if_neg hbig]

/-- `read_header`: read 4 bytes, check the sequence byte, return the 24-bit
length, the incremented sequence_id and the unread rest of the stream. -/
def read_header (seq : Nat) (input : List Nat) : Except ProtoError (Nat × Nat × List Nat) :=
  match input with
  | b0 :: b1 :: b2 :: b3 :: rest =>
    if b3 = seq % 256 then
      Except.ok (b0 ||| b1 <<< 8 ||| b2 <<< 16, seq + 1, rest)
    else
      -- "Invalid sequence"
      Except.error ProtoError.Io
  | _ =>
    -- "Read packet header failed"
    Except.error ProtoError.Io

/-- `read_content`: read exactly `len` bytes (`take(len).read_exact`). -/
def read_content (len : Nat) (input : List Nat) : Except ProtoError (List Nat × List Nat) :=
  if len ≤ input.length then Except.ok (input.take len, input.drop len)
  else Except.error ProtoError.Io

/-- `read_one_packet`: one header, then `length` bytes (none when the
header length is 0). -/
def read_one_packet (seq : Nat) (input : List Nat) :
    Except ProtoError (List Nat × Nat × List Nat) :=
  match read_header seq input with
  | Except.error e => Except.error e
  | Except.ok (length, seq1, rest) =>
    if length = 0 then Except.ok ([], seq1, rest)
    else
      match read_content length rest with
      | Except.error e => Except.error e
      | Except.ok (data, rest1) => Except.ok (data, seq1, rest1)

theorem read_header_consumes {seq : Nat} {input : List Nat} {len s : Nat} {rest : List Nat}
    (h : read_header seq input = Except.ok (len, s, rest)) : rest.length + 4 = input.length := by
  unfold read_header at h
  rcases input with _ | ⟨b0, _ | ⟨b1, _ | ⟨b2, _ | ⟨b3, rest2⟩⟩⟩⟩ <;> try simp at h
  split at h
  · cases h
    simp
  · cases h

theorem read_one_packet_consumes {seq : Nat} {input d : List Nat} {s : Nat} {r : List Nat}
    (h : read_one_packet seq input = Except.ok (d, s, r)) : r.length + 4 ≤ input.length := by
  unfold read_one_packet at h
  cases hrh : read_header seq input with
  | error e => rw [hrh] at h; cases h
  | ok v =>
    obtain ⟨len, s1, rest⟩ := v
    rw [hrh] at h
    have hc := read_header_consumes hrh
    simp only at h
    split at h
    · cases h
      omega
    · by_cases hle : len ≤ rest.length
      · simp only [read_content, if_pos hle] at h
        cases h
        simp only [List.length_drop]
        omega
      · simp only [read_content, if_neg hle] at h
        cases h

/-- `read_batch_packets`: keep appending fragments until an empty fragment
or one shorter than MAX_PACKET_SIZE is read. -/
def read_batch_packets (seq : Nat) (data : List Nat) (input : List Nat) :
    Except ProtoError (List Nat × Nat × List Nat) :=
  match h : read_one_packet seq input with
  | Except.error e => Except.error e
  | Except.ok (next, seq1, rest) =>
    if next.isEmpty then Except.ok (data, seq1, rest)
    else if next.length < MAX_PACKET_SIZE then Except.ok (data ++ next, seq1, rest)
    else read_batch_packets seq1 (data ++ next) rest
termination_by input.length
decreasing_by
  have := read_one_packet_consumes h
  omega

/-- `read_packets`: optimized single-packet read, falling back to batch
reassembly when the first fragment has maximal length. -/
def read_packets (seq : Nat) (input : List Nat) :
    Except ProtoError (List Nat × Nat × List Nat) :=
  match read_one_packet seq input with
  | Except.error e => Except.error e
  | Except.ok (data, seq1, rest) =>
    if data.length < MAX_PACKET_SIZE then Except.ok (data, seq1, rest)
    else read_batch_packets seq1 data rest

/-- `read_ephemeral_packet` (command-phase read).  Mirrors the Rust match:
a zero length yields an empty payload; a length strictly greater than
MAX_PACKET_SIZE triggers batch reassembly; otherwise the single fragment
is returned. -/
def read_ephemeral_packet (seq : Nat) (input : List Nat) :
    Except ProtoError (List Nat × Nat × List Nat) :=
  match read_header seq input with
  | Except.error e => Except.error e
  | Except.ok (length, seq1, rest) =>
    if length = 0 then Except.ok ([], seq1, rest)
    else if MAX_PACKET_SIZE < length then
      match read_content length rest with
      | Except.error e => Except.error e
      | Except.ok (c, rest1) =>
        match read_batch_packets seq1 c rest1 with
        | Except.error e => Except.error e
        | Except.ok r => Except.ok r
    else
      match read_content length rest with
      | Except.error e => Except.error e
      | Except.ok (c, rest1) => Except.ok (c, seq1, rest1)

/-- `read_ephemeral_packet_direct` (handshake-response read).  Same but the
over-MAX branch fails with MultiPacketNotSupport. -/
def read_ephemeral_packet_direct (seq : Nat) (input : List Nat) :
    Except ProtoError (List Nat × Nat × List Nat) :=
  match read_header seq input with
  | Except.error e => Except.error e
  | Except.ok (length, seq1, rest) =>
    if length = 0 then Except.ok ([], seq1, rest)
    else if MAX_PACKET_SIZE < length then Except.error ProtoError.MultiPacketNotSupport
    else
      match read_content length rest with
      | Except.error e => Except.error e
      | Except.ok (c, rest1) => Except.ok (c, seq1, rest1)

/-! ### Framing laws -/

/-- Reassembling the three little-endian length bytes of a frame header
recovers the 24-bit length. -/
theorem decode24 (l : Nat) (h : l < 2 ^ 24) :
    l % 256 ||| (l / 256 % 256) <<< 8 ||| (l / 65536 % 256) <<< 16 = l := by
  apply Nat.eq_of_testBit_eq
  intro i
  have hdiv8 : l / 256 = l >>> 8 := by
    rw [Nat.shiftRight_eq_div_pow]
  have hdiv16 : l / 65536 = l >>> 16 := by
    rw [Nat.shiftRight_eq_div_pow]
  have h256 : (256 : Nat) = 2 ^ 8 := by norm_num
  rw [hdiv8, hdiv16, h256]
  simp only [Nat.testBit_or, Nat.testBit_shiftLeft, Nat.testBit_mod_two_pow,
    Nat.testBit_shiftRight, ge_iff_le]
  rcases Nat.lt_or_ge i 8 with h8 | h8
  · have : ¬ (8 ≤ i) := by omega
    have h16 : ¬ (16 ≤ i) := by omega
    simp [h8, this, h16]
  · rcases Nat.lt_or_ge i 16 with h16 | h16
    · have hi : 8 + (i - 8) = i := by omega
      have : ¬ (i < 8) := by omega
      have h16n : ¬ (16 ≤ i) := by omega
      simp [h8, h16n, this, hi, Nat.sub_lt_iff_lt_add h8]
      omega
    · rcases Nat.lt_or_ge i 24 with h24 | h24
      · have hi : 16 + (i - 16) = i := by omega
        have : ¬ (i < 8) := by omega
        have h8n : ¬ (i - 8 < 8) := by omega
        simp [h8, h16, this, h8n, hi]
        omega
      · have hfalse : l.testBit i = false :=
          Nat.testBit_lt_two_pow (Nat.lt_of_lt_of_le h (Nat.pow_le_pow_right (by norm_num) h24))
        have : ¬ (i < 8) := by omega
        have h8n : ¬ (i - 8 < 8) := by omega
        have h16n : ¬ (i - 16 < 8) := by omega
        simp [h8, h16, this, h8n, h16n, hfalse]

/-- Reading a header produced by `write_packet` succeeds and recovers the
chunk length. -/
theorem read_header_mkHeader (seq l : Nat) (hl : l < 2 ^ 24) (tail : List Nat) :
    read_header seq (mkHeader l seq ++ tail) = Except.ok (l, seq + 1, tail) := by
  simp [mkHeader, read_header, decode24 l hl]

/-- Reading one packet from a well-formed frame recovers the chunk. -/
theorem read_one_packet_frame (seq : Nat) (chunk tail : List Nat)
    (hl : chunk.length < 2 ^ 24) :
    read_one_packet seq (mkHeader chunk.length seq ++ chunk ++ tail) =
      Except.ok (chunk, seq + 1, tail) := by
  unfold read_one_packet
  rw [List.append_assoc, read_header_mkHeader seq chunk.length hl (chunk ++ tail)]
  by_cases h0 : chunk.length = 0
  · have hnil : chunk = [] := List.eq_nil_of_length_eq_zero h0
    subst hnil
    simp
  · simp only [if_neg h0, read_content]
    have hle : chunk.length ≤ (chunk ++ tail).length := by simp
    rw [if_pos hle, List.take_left, List.drop_left]

theorem write_packet_go_small (seq : Nat) (data : List Nat)
    (h : data.length < MAX_PACKET_SIZE) :
    write_packet_go seq data = (seq + 1, mkHeader data.length seq ++ data) := by
  unfold write_packet_go write_packet_loop
  rw [if_neg (by omega), if_neg (by omega)]

theorem write_packet_go_max (seq : Nat) (data : List Nat)
    (h : data.length = MAX_PACKET_SIZE) :
    write_packet_go seq data =
      (seq + 2, mkHeader MAX_PACKET_SIZE seq ++ data ++ [0, 0, 0, (seq + 1) % 256]) := by
  unfold write_packet_go write_packet_loop
  rw [if_neg (by omega), if_pos h]

theorem write_packet_go_big (seq : Nat) (data : List Nat)
    (h : MAX_PACKET_SIZE < data.length) :
    write_packet_go seq data =
      ((write_packet_go (seq + 1) (data.drop MAX_PACKET_SIZE)).1,
        mkHeader MAX_PACKET_SIZE seq ++ data.take MAX_PACKET_SIZE ++
          (write_packet_go (seq + 1) (data.drop MAX_PACKET_SIZE)).2) := by
  unfold write_packet_go
  conv_lhs => unfold write_packet_loop
  rw [if_pos h]
  have hm1 : 0 < MAX_PACKET_SIZE := by decide
  have hc := write_packet_loop_congr (data.drop MAX_PACKET_SIZE).length
    (data.drop MAX_PACKET_SIZE) data.length ((data.drop MAX_PACKET_SIZE).length + 1)
    (seq + 1) rfl (by simp only [List.length_drop]; omega) (by omega)
  rw [hc]

/-- One unfolding of the `read_batch_packets` loop when the packet read is
known. -/
theorem read_batch_packets_step {seq : Nat} {acc input next : List Nat} {seq1 : Nat}
    {rest : List Nat} (h : read_one_packet seq input = Except.ok (next, seq1, rest)) :
    read_batch_packets seq acc input =
      if next.isEmpty then Except.ok (acc, seq1, rest)
      else if next.length < MAX_PACKET_SIZE then Except.ok (acc ++ next, seq1, rest)
      else read_batch_packets seq1 (acc ++ next) rest := by
  conv_lhs => unfold read_batch_packets
  split
  · rename_i e heq
    rw [h] at heq
    cases heq
  · rename_i next2 seq2 rest2 heq
    rw [h] at heq
    cases heq
    rfl

theorem max_packet_size_lt : MAX_PACKET_SIZE < 2 ^ 24 := by decide

/-- Batch reassembly of the frames `write_packet` emits for a nonempty
payload recovers the payload. -/
theorem read_batch_write_packet (n : Nat) :
    ∀ (b : List Nat) (seq : Nat) (acc : List Nat), b.length = n → 1 ≤ n →
      read_batch_packets seq acc (write_packet_go seq b).2 =
        Except.ok (acc ++ b, (write_packet_go seq b).1, []) := by
  induction n using Nat.strong_induction_on with
  | _ n ih =>
    intro b seq acc hlen hpos
    rcases Nat.lt_or_ge b.length MAX_PACKET_SIZE with hsm | hge
    · rw [write_packet_go_small seq b hsm]
      have hb24 : b.length < 2 ^ 24 := by
        have := max_packet_size_lt
        omega
      have hframe := read_one_packet_frame seq b [] hb24
      rw [List.append_nil] at hframe
      rw [read_batch_packets_step hframe]
      have hne : ¬ b.isEmpty := by
        cases b
        · simp at hlen
          omega
        · simp
      rw [if_neg hne, if_pos hsm]
    · rcases Nat.eq_or_lt_of_le hge with heq | hbig
      · rw [write_packet_go_max seq b heq.symm]
        have hb24 : b.length < 2 ^ 24 := by
          have := max_packet_size_lt
          omega
        have hframe := read_one_packet_frame seq b [0, 0, 0, (seq + 1) % 256] hb24
        rw [← heq] at hframe
        rw [read_batch_packets_step hframe]
        have hne : ¬ b.isEmpty := by
          cases b
          · simp at hlen
            omega
          · simp
        rw [if_neg hne, if_neg (by omega)]
        have htrailer : read_one_packet (seq + 1) [0, 0, 0, (seq + 1) % 256] =
            Except.ok ([], seq + 2, []) := by
          have := read_one_packet_frame (seq + 1) [] [] (by decide)
          simpa [mkHeader] using this
        rw [read_batch_packets_step htrailer]
        simp
      · rw [write_packet_go_big seq b hbig]
        have htk : (b.take MAX_PACKET_SIZE).length = MAX_PACKET_SIZE := by
          simp [List.length_take]
          omega
        have hframe := read_one_packet_frame seq (b.take MAX_PACKET_SIZE)
          ((write_packet_go (seq + 1) (b.drop MAX_PACKET_SIZE)).2)
          (by rw [htk]; exact max_packet_size_lt)
        rw [htk] at hframe
        rw [read_batch_packets_step hframe]
        have hne : ¬ (b.take MAX_PACKET_SIZE).isEmpty := by
          rw [List.isEmpty_iff, ← List.length_eq_zero, htk]
          decide
        rw [if_neg hne, if_neg (by rw [htk]; omega)]
        have hdrop : (b.drop MAX_PACKET_SIZE).length = n - MAX_PACKET_SIZE := by
          simp [List.length_drop, hlen]
        have hmax1 : 0 < MAX_PACKET_SIZE := by decide
        have hrec := ih (n - MAX_PACKET_SIZE) (by omega)
          (b.drop MAX_PACKET_SIZE) (seq + 1) (acc ++ b.take MAX_PACKET_SIZE)
          hdrop (by omega)
        rw [hrec, List.append_assoc, List.take_append_drop]

/-- `read_packets` inverts `write_packet` for every payload, consuming the
whole stream and ending at the writer's sequence_id. -/
theorem read_packets_write_packet (b : List Nat) (seq : Nat) :
    read_packets seq (write_packet_go seq b).2 =
      Except.ok (b, (write_packet_go seq b).1, []) := by
  rcases Nat.lt_or_ge b.length MAX_PACKET_SIZE with hsm | hge
  · rw [write_packet_go_small seq b hsm]
    unfold read_packets
    have hb24 : b.length < 2 ^ 24 := by
      have := max_packet_size_lt
      omega
    have hframe := read_one_packet_frame seq b [] hb24
    rw [List.append_nil] at hframe
    rw [hframe]
    simp only [if_pos hsm]
  · rcases Nat.eq_or_lt_of_le hge with heq | hbig
    · rw [write_packet_go_max seq b heq.symm]
      unfold read_packets
      have hb24 : b.length < 2 ^ 24 := by
        have := max_packet_size_lt
        omega
      have hframe := read_one_packet_frame seq b [0, 0, 0, (seq + 1) % 256] hb24
      rw [← heq] at hframe
      rw [hframe]
      have hnot : ¬ (b.length < MAX_PACKET_SIZE) := by omega
      simp only [if_neg hnot]
      have htrailer : read_one_packet (seq + 1) [0, 0, 0, (seq + 1) % 256] =
          Except.ok ([], seq + 2, []) := by
        have := read_one_packet_frame (seq + 1) [] [] (by decide)
        simpa [mkHeader] using this
      rw [read_batch_packets_step htrailer]
      simp
    · rw [write_packet_go_big seq b hbig]
      unfold read_packets
      have htk : (b.take MAX_PACKET_SIZE).length = MAX_PACKET_SIZE := by
        simp [List.length_take]
        omega
      have hframe := read_one_packet_frame seq (b.take MAX_PACKET_SIZE)
        ((write_packet_go (seq + 1) (b.drop MAX_PACKET_SIZE)).2)
        (by rw [htk]; exact max_packet_size_lt)
      rw [htk] at hframe
      rw [hframe]
      have hnot : ¬ ((b.take MAX_PACKET_SIZE).length < MAX_PACKET_SIZE) := by
        rw [htk]
        omega
      simp only [if_neg hnot]
      have hrec := read_batch_write_packet (b.drop MAX_PACKET_SIZE).length
        (b.drop MAX_PACKET_SIZE) (seq + 1) (b.take MAX_PACKET_SIZE) rfl
        (by simp [List.length_drop]; omega)
      rw [hrec]
      simp [List.take_append_drop]

/-- C3: for every byte sequence b of length at most 64 MiB, writing b with
write_packet on a framer with sequence_id 0 and then reading with
read_packets on a framer with sequence_id 0 yields exactly b (consuming the
whole stream), and both framers end with equal sequence_id values. -/
theorem framing_round_trip (b : List Nat) (h : b.length ≤ 64 * 2 ^ 20) :
    read_packets 0 (write_packet_go 0 b).2 =
      Except.ok (b, (write_packet_go 0 b).1, []) :=
  read_packets_write_packet b 0

/-- Witness for framing_round_trip at the concrete payload [1, 2, 3]. -/
theorem framing_round_trip_witness :
    read_packets 0 (write_packet_go 0 [1, 2, 3]).2 =
      Except.ok ([1, 2, 3], (write_packet_go 0 [1, 2, 3]).1, []) :=
  framing_round_trip [1, 2, 3] (by decide)

/-- C4: a first frame carrying the maximal length 2^24 - 1 is returned by
read_ephemeral_packet as-is, WITHOUT reading any continuation fragment: the
reassembly guard `length > MAX_PACKET_SIZE` can never hold for a 24-bit
length, so the batch reader is unreachable (the following fragments stay
unread in the stream). -/
theorem read_ephemeral_packet_max_frame (payload junk : List Nat)
    (h : payload.length = MAX_PACKET_SIZE) :
    read_ephemeral_packet 0 ([255, 255, 255, 0] ++ payload ++ junk) =
      Except.ok (payload, 1, junk) := by
  have hhdr : ([255, 255, 255, 0] : List Nat) = mkHeader MAX_PACKET_SIZE 0 := by decide
  unfold read_ephemeral_packet
  rw [List.append_assoc, hhdr,
    read_header_mkHeader 0 MAX_PACKET_SIZE max_packet_size_lt (payload ++ junk)]
  have h0 : ¬ (MAX_PACKET_SIZE = 0) := by decide
  have h1 : ¬ (MAX_PACKET_SIZE < MAX_PACKET_SIZE) := by omega
  simp only [if_neg h0, if_neg h1, read_content]
  have hle : MAX_PACKET_SIZE ≤ (payload ++ junk).length := by
    simp [h]
  rw [if_pos hle, List.take_left' h, List.drop_left' h]

/-- Witness for read_ephemeral_packet_max_frame: a maximal frame followed by
one more byte; the trailing byte is left unconsumed. -/
theorem read_ephemeral_packet_max_frame_witness :
    read_ephemeral_packet 0
        ([255, 255, 255, 0] ++ List.replicate MAX_PACKET_SIZE 7 ++ [9]) =
      Except.ok (List.replicate MAX_PACKET_SIZE 7, 1, [9]) :=
  read_ephemeral_packet_max_frame (List.replicate MAX_PACKET_SIZE 7) [9] (by simp)

/-- C5: read_ephemeral_packet_direct does NOT fail with MultiPacketNotSupport
on a first frame of maximal length 2^24 - 1: the guard
`length > MAX_PACKET_SIZE` can never hold for a 24-bit length, so the
oversize frame is read and returned as an ordinary payload. -/
theorem read_ephemeral_packet_direct_max_frame (payload junk : List Nat)
    (h : payload.length = MAX_PACKET_SIZE) :
    read_ephemeral_packet_direct 0 ([255, 255, 255, 0] ++ payload ++ junk) =
      Except.ok (payload, 1, junk) := by
  have hhdr : ([255, 255, 255, 0] : List Nat) = mkHeader MAX_PACKET_SIZE 0 := by decide
  unfold read_ephemeral_packet_direct
  rw [List.append_assoc, hhdr,
    read_header_mkHeader 0 MAX_PACKET_SIZE max_packet_size_lt (payload ++ junk)]
  have h0 : ¬ (MAX_PACKET_SIZE = 0) := by decide
  have h1 : ¬ (MAX_PACKET_SIZE < MAX_PACKET_SIZE) := by omega
  simp only [if_neg h0, if_neg h1, read_content]
  have hle : MAX_PACKET_SIZE ≤ (payload ++ junk).length := by
    simp [h]
  rw [if_pos hle, List.take_left' h, List.drop_left' h]

/-- Witness for read_ephemeral_packet_direct_max_frame: the handshake read
returns the maximal-length fragment instead of the MultiPacketNotSupport
error. -/
theorem read_ephemeral_packet_direct_max_frame_witness :
    read_ephemeral_packet_direct 0
        ([255, 255, 255, 0] ++ List.replicate MAX_PACKET_SIZE 8 ++ []) =
      Except.ok (List.replicate MAX_PACKET_SIZE 8, 1, []) :=
  read_ephemeral_packet_direct_max_frame (List.replicate MAX_PACKET_SIZE 8) [] (by simp)

/-! ### Data model (src/sql_type/mod.rs).  Rust strings are embedded as
their UTF-8 byte lists. -/

/-- Bytes of a string literal, as Nat values.  Every string the protocol
writes is ASCII, so the code points coincide with the UTF-8 bytes. -/
def strBytes (s : String) : List Nat := s.data.map (fun c => c.toNat)

structure Field where
  name : List Nat
  typ : Int
  table : List Nat
  org_table : List Nat
  database : List Nat
  org_name : List Nat
  column_len : Nat
  charset : Nat
  decimals : Nat
  flags : Nat
  deriving DecidableEq, Repr

structure Value where
  typ : Int
  val : List Nat
  deriving DecidableEq, Repr

/-- `Value::is_null`: the type code equals NullType (= 0). -/
def Value.is_null (v : Value) : Bool := v.typ = 0

structure SqlResult where
  fields : List Field
  affected_rows : Nat
  insert_id : Nat
  rows : List (List Value)
  deriving DecidableEq, Repr

/-- The TYPE_TO_MYSQL table: internal type code to (MySQL wire type, flags).
`none` models the `panic!("Unexpected")` on a type code missing from the
map. -/
def type_to_mysql (typ : Int) : Option (Int × Int) :=
  if typ = 257 then some (1, 0)
  else if typ = 770 then some (1, 32)
  else if typ = 259 then some (2, 0)
  else if typ = 772 then some (2, 32)
  else if typ = 263 then some (3, 0)
  else if typ = 776 then some (3, 32)
  else if typ = 1035 then some (4, 0)
  else if typ = 1036 then some (5, 0)
  else if typ = 0 then some (6, 128)
  else if typ = 2061 then some (7, 0)
  else if typ = 265 then some (8, 0)
  else if typ = 778 then some (8, 32)
  else if typ = 261 then some (9, 0)
  else if typ = 774 then some (9, 32)
  else if typ = 2062 then some (10, 128)
  else if typ = 2063 then some (11, 128)
  else if typ = 2064 then some (12, 128)
  else if typ = 785 then some (13, 32)
  else if typ = 2073 then some (16, 32)
  else if typ = 2078 then some (245, 0)
  else if typ = 18 then some (246, 0)
  else if typ = 6163 then some (252, 0)
  else if typ = 10260 then some (252, 128)
  else if typ = 6165 then some (253, 0)
  else if typ = 10262 then some (253, 128)
  else if typ = 6167 then some (254, 0)
  else if typ = 10264 then some (254, 128)
  else if typ = 2074 then some (254, 256)
  else if typ = 2075 then some (254, 2048)
  else if typ = 2077 then some (255, 0)
  else none

/-! ### The Packets struct (src/proto/packets.rs).  The write half of the
stream is the `out` byte list; reads take an explicit input list. -/

structure Packets where
  sequence_id : Nat
  capability : Nat
  status_flags : Nat
  out : List Nat
  deriving DecidableEq, Repr

/-- `Packets::write_packet`: frame `data` and append it to the stream. -/
def Packets.write_packet (p : Packets) (data : List Nat) : Packets :=
  let r := write_packet_go p.sequence_id data
  { p with sequence_id := r.1, out := p.out ++ r.2 }

/-- `write_ok_packet`: a framed OK packet. -/
def Packets.write_ok_packet (p : Packets) (affected_rows last_insert_id flags warnings : Nat) :
    Packets :=
  p.write_packet (OK_PACKET :: (write_len_int affected_rows ++
    write_len_int last_insert_id ++ u16le flags ++ u16le warnings))

/-- `write_ok_packet_with_eof_header`: same body with the EOF_PACKET header
byte (which the source defines as 0xff). -/
def Packets.write_ok_packet_with_eof_header
    (p : Packets) (affected_rows last_insert_id flags warnings : Nat) : Packets :=
  p.write_packet (EOF_PACKET :: (write_len_int affected_rows ++
    write_len_int last_insert_id ++ u16le flags ++ u16le warnings))

/-- `write_eof_packet`: 5 bytes written RAW to the stream (not framed by
write_packet, and the sequence_id is untouched). -/
def Packets.write_eof_packet (p : Packets) (flags warnings : Nat) : Packets :=
  { p with out := p.out ++ (EOF_PACKET :: (u16le warnings ++ u16le flags)) }

/-- `write_err_packet`: framed ERR packet; an empty sql_state falls back to
SSUnknownSQLState ("HY000").  (The source asserts the state is 5 bytes;
every call site passes a 5-byte state.) -/
def Packets.write_err_packet (p : Packets) (err_code : Nat) (sql_state err_msg : List Nat) :
    Packets :=
  let st := if sql_state.isEmpty then strBytes ("HY000") else sql_state
  p.write_packet (ERR_PACKET :: (u16le err_code ++ [0x23] ++ st ++ err_msg))

/-- `write_err_packet_from_err`. -/
def Packets.write_err_packet_from_err (p : Packets) : Packets :=
  p.write_err_packet ERUnknownError (strBytes ("HY000")) (strBytes ("Unknown error"))

/-- `write_end_result`: EOF when DEPRECATE_EOF is not in the capability,
OK-with-EOF-header otherwise. -/
def Packets.write_end_result (p : Packets) (more : Bool)
    (affected_rows last_insert_id : Nat) (warnings : Nat) : Packets :=
  let flags := if more then p.status_flags ||| SERVER_MORE_RESULTS_EXISTS else p.status_flags
  if p.capability &&& CapabilityClientDeprecateEOF = 0 then
    p.write_eof_packet flags warnings
  else
    p.write_ok_packet_with_eof_header affected_rows last_insert_id flags warnings

/-- `write_column_definition`: the ColumnDefinition41 byte image for one
field; `none` models the panic on an unknown type code. -/
def write_column_definition (field : Field) : Option (List Nat) :=
  match type_to_mysql field.typ with
  | none => none
  | some (typ, table_flags) =>
    -- `if field.flags != 0 { flags = field.flags as i64 }`
    let flags : Int := if field.flags ≠ 0 then (field.flags : Int) else table_flags
    some (write_len_str (strBytes ("def")) ++
      write_len_str field.database ++
      write_len_str field.table ++
      write_len_str field.org_table ++
      write_len_str field.name ++
      write_len_str field.org_name ++
      [0x0c] ++
      u16le field.charset ++
      u32le field.column_len ++
      [typ.toNat % 256] ++
      u16le flags.toNat ++
      [field.decimals % 256] ++
      u16le 0)

/-- `write_fields`: the local `data` Vec receives the length-encoded
encoding SIZE of the field count but is never written to the stream (the
binding is dropped); the column definitions are written raw to the stream;
an EOF packet follows iff DEPRECATE_EOF is not in the capability. -/
def Packets.write_fields (p : Packets) (result : SqlResult) : Option Packets :=
  let _data := write_len_int (len_enc_int_size result.fields.length)
  match result.fields.mapM write_column_definition with
  | none => none
  | some cols =>
    let p1 := { p with out := p.out ++ cols.flatten }
    if p1.capability &&& CapabilityClientDeprecateEOF = 0 then
      some (p1.write_eof_packet p1.status_flags 0)
    else
      some p1

/-- The per-column encoding inside `write_row`: NULL as 0xfb, otherwise a
length-encoded string of the raw bytes. -/
def write_row_bytes (row : List Value) : List Nat :=
  (row.map (fun val =>
    if val.is_null then [0xfb] else write_len_int val.val.length ++ val.val)).flatten

/-- `write_row`: one row written raw to the stream. -/
def Packets.write_row (p : Packets) (row : List Value) : Packets :=
  { p with out := p.out ++ write_row_bytes row }

/-- `write_rows`: every row of the result. -/
def Packets.write_rows (p : Packets) (qr : SqlResult) : Packets :=
  qr.rows.foldl Packets.write_row p

/-! ### exec_query (src/proto/packets.rs).  The user handler is modelled by
the list of SqlResult segments it passes to the streaming callback; the
callback body is translated verbatim.  A callback returns `false` for the
`Err(io::Error::new(UnexpectedEof, ""))` failsafe, `true` for Ok; `none`
at the outer level models a panic inside column-definition lookup. -/

/-- The closure passed to `handler.com_query`.  State: the framer plus the
`send_finished` and `field_sent` flags captured by the closure. -/
def exec_callback (more : Bool) (st : Packets × Bool × Bool) (qr : SqlResult) :
    Option ((Packets × Bool × Bool) × Bool) :=
  let p := st.1
  let send_finished := st.2.1
  let field_sent := st.2.2
  let flags := if more then p.status_flags ||| SERVER_MORE_RESULTS_EXISTS else p.status_flags
  if send_finished then
    -- failsafe: Err(UnexpectedEof), nothing written
    some (st, false)
  else if !field_sent then
    if qr.fields.isEmpty then
      some ((p.write_ok_packet qr.affected_rows qr.insert_id flags 0, true, true), true)
    else
      match p.write_fields qr with
      | none => none
      | some p1 => some ((p1, send_finished, true), true)
  else
    some ((p.write_rows qr, send_finished, field_sent), true)

/-- All callback invocations the handler performs, in order, collecting
each invocation's result. -/
def exec_callbacks (more : Bool) (st : Packets × Bool × Bool) :
    List SqlResult → Option ((Packets × Bool × Bool) × List Bool)
  | [] => some (st, [])
  | qr :: rest =>
    match exec_callback more st qr with
    | none => none
    | some (st1, r) =>
      match exec_callbacks more st1 rest with
      | none => none
      | some (st2, rs) => some (st2, r :: rs)

/-- `exec_query`: run the handler's callback invocations, then emit the end
of result set if fields were sent but no terminal OK was.  The modelled
handler invokes the callback on every segment and surfaces a callback
error as its own result, so a failed invocation makes `exec_query` return
the error (skipping the end-result packet, as the `?` in the source
does). -/
def exec_query (p : Packets) (segments : List SqlResult) (more : Bool) :
    Option (Packets × List Bool × Option ProtoError) :=
  match exec_callbacks more (p, false, false) segments with
  | none => none
  | some ((p1, send_finished, field_sent), results) =>
    if results.all (fun r => r) then
      if field_sent && !send_finished then
        some (p1.write_end_result more 0 0 0, results, none)
      else
        some (p1, results, none)
    else
      some (p1, results, some ProtoError.Io)

/-! ### Result-set streaming laws -/

theorem write_len_int_length_le (v : Nat) : (write_len_int v).length ≤ 9 := by
  unfold write_len_int
  split
  · simp
  · split
    · simp [u16le]
    · split
      · simp
      · simp [u64le]

/-- C1: the terminator the server emits after the last row under
DEPRECATE_EOF is a framed packet whose first body byte is EOF_PACKET,
which the source defines as 0xff — NOT 0xfe as the specification states.
Evaluated at a concrete framer (status_flags 2, capability DEPRECATE_EOF):
byte 4 of the stream (the first body byte after the 4-byte frame header)
is 0xff. -/
theorem write_end_result_deprecate_eof_header :
    (Packets.write_end_result
        { sequence_id := 0, capability := CapabilityClientDeprecateEOF,
          status_flags := 2, out := [] } false 0 0 0).out =
      [7, 0, 0, 0, 255, 0, 0, 2, 0, 0, 0] ∧
    (Packets.write_end_result
        { sequence_id := 0, capability := CapabilityClientDeprecateEOF,
          status_flags := 2, out := [] } false 0 0 0).out.take 5 ≠
      [7, 0, 0, 0, 0xfe] ∧
    EOF_PACKET = 0xff := by
  refine ⟨?_, by decide, by decide⟩
  decide

/-- C2: `write_fields` never writes the leading field-count packet: the
length-encoded buffer holding the encoding size of the field count is
built into a local Vec that is dropped.  At a concrete one-field result
(field "c", Int32, charset 33, column_len 11, DEPRECATE_EOF absent,
status_flags 2) the bytes that reach the stream are exactly the raw
(unframed) ColumnDefinition41 image followed by the raw 5-byte EOF image;
no packet whose body is the length-encoded field-count size precedes
them. -/
theorem write_fields_drops_field_count_packet :
    Packets.write_fields
        { sequence_id := 0, capability := 0, status_flags := 2, out := [] }
        { fields := [{ name := [99], typ := 263, table := [], org_table := [],
                       database := [], org_name := [], column_len := 11,
                       charset := 33, decimals := 0, flags := 0 }],
          affected_rows := 0, insert_id := 0, rows := [] } =
      some { sequence_id := 0, capability := 0, status_flags := 2,
             out := [3, 100, 101, 102, 0, 0, 0, 1, 99, 0,
                     12, 33, 0, 11, 0, 0, 0, 3, 0, 0, 0, 0, 0,
                     255, 0, 0, 2, 0] } := by
  decide

theorem exec_callbacks_finished (more : Bool) (p : Packets) (fs : Bool)
    (segs : List SqlResult) :
    exec_callbacks more (p, true, fs) segs =
      some ((p, true, fs), List.replicate segs.length false) := by
  induction segs with
  | nil => rfl
  | cons s rest ih =>
    unfold exec_callbacks exec_callback
    simp [ih, List.replicate_succ]

/-- C6: when the first callback invocation of one exec_query call carries
an empty field list, the server writes exactly one framed OK packet whose
body is (OK_PACKET, lenenc affected_rows, lenenc insert_id, u16
status_flags with SERVER_MORE_RESULTS_EXISTS OR'ed in iff more, u16 0),
marks sending finished (send_finished and field_sent both set), and every
callback invocation after that point returns an I/O error and writes
nothing: the final framer state is exactly the one the first invocation
produced, each later invocation's result is an error, and no end-of-result
packet follows. -/
theorem exec_query_affected_rows (p : Packets) (s0 : SqlResult)
    (rest : List SqlResult) (more : Bool) (h : s0.fields = []) :
    exec_query p (s0 :: rest) more =
      some (p.write_ok_packet s0.affected_rows s0.insert_id
              (if more then p.status_flags ||| SERVER_MORE_RESULTS_EXISTS
               else p.status_flags) 0,
            true :: List.replicate rest.length false,
            if rest.isEmpty then none else some ProtoError.Io) ∧
    exec_callbacks more (p, false, false) (s0 :: rest) =
      some ((p.write_ok_packet s0.affected_rows s0.insert_id
               (if more then p.status_flags ||| SERVER_MORE_RESULTS_EXISTS
                else p.status_flags) 0, true, true),
            true :: List.replicate rest.length false) ∧
    (p.write_ok_packet s0.affected_rows s0.insert_id
        (if more then p.status_flags ||| SERVER_MORE_RESULTS_EXISTS
         else p.status_flags) 0).out =
      p.out ++
        mkHeader (1 + ((write_len_int s0.affected_rows).length +
            ((write_len_int s0.insert_id).length + 4))) p.sequence_id ++
        (OK_PACKET :: (write_len_int s0.affected_rows ++
          write_len_int s0.insert_id ++
          u16le (if more then p.status_flags ||| SERVER_MORE_RESULTS_EXISTS
                 else p.status_flags) ++ u16le 0)) := by
  have hempty : s0.fields.isEmpty := by rw [h]; rfl
  have hcb : exec_callbacks more (p, false, false) (s0 :: rest) =
      some ((p.write_ok_packet s0.affected_rows s0.insert_id
               (if more then p.status_flags ||| SERVER_MORE_RESULTS_EXISTS
                else p.status_flags) 0, true, true),
            true :: List.replicate rest.length false) := by
    unfold exec_callbacks exec_callback
    simp [hempty, exec_callbacks_finished]
  refine ⟨?_, hcb, ?_⟩
  · unfold exec_query
    rw [hcb]
    cases rest with
    | nil => rfl
    | cons r rs =>
      simp [List.all_eq_true]
  · show (Packets.write_packet _ _).out = _
    unfold Packets.write_packet
    have hlen : (OK_PACKET :: (write_len_int s0.affected_rows ++
        write_len_int s0.insert_id ++
        u16le (if more then p.status_flags ||| SERVER_MORE_RESULTS_EXISTS
               else p.status_flags) ++ u16le 0)).length =
        1 + ((write_len_int s0.affected_rows).length +
          ((write_len_int s0.insert_id).length + 4)) := by
      simp [u16le]
      omega
    have hsmall : (OK_PACKET :: (write_len_int s0.affected_rows ++
        write_len_int s0.insert_id ++
        u16le (if more then p.status_flags ||| SERVER_MORE_RESULTS_EXISTS
               else p.status_flags) ++ u16le 0)).length < MAX_PACKET_SIZE := by
      rw [hlen]
      have h1 := write_len_int_length_le s0.affected_rows
      have h2 := write_len_int_length_le s0.insert_id
      have : (24 : Nat) < MAX_PACKET_SIZE := by decide
      omega
    rw [write_packet_go_small _ _ hsmall]
    rw [hlen]
    simp [List.append_assoc]

/-- Witness for exec_query_affected_rows: first segment with empty fields
and affected_rows 12, insert_id 34, followed by one more (refused)
invocation. -/
theorem exec_query_affected_rows_witness :
    exec_query { sequence_id := 0, capability := 0, status_flags := 2, out := [] }
        [{ fields := [], affected_rows := 12, insert_id := 34, rows := [] },
         { fields := [], affected_rows := 1, insert_id := 1, rows := [] }] false =
      some (Packets.write_ok_packet
              { sequence_id := 0, capability := 0, status_flags := 2, out := [] }
              12 34 2 0,
            [true, false], some ProtoError.Io) := by
  have h := exec_query_affected_rows
    { sequence_id := 0, capability := 0, status_flags := 2, out := [] }
    { fields := [], affected_rows := 12, insert_id := 34, rows := [] }
    [{ fields := [], affected_rows := 1, insert_id := 1, rows := [] }] false rfl
  exact h.1

/-! ### Command codes (enum PacketType in src/constants.rs) -/

inductive PacketType where
  | ComSleep
  | ComQuit
  | ComInitDB
  | ComQuery
  | ComFieldList
  | ComCreateDb
  | ComDropDb
  | ComRefresh
  | ComShutdown
  | ComStatistics
  | ComProcessInfo
  | ComConnect
  | ComProcessKill
  | ComDebug
  | ComPing
  | ComTime
  | ComDelayedInsert
  | ComChangeUser
  | ComBinlogDump
  | ComTableDump
  | ComConnectOut
  | ComRegisterSlave
  | ComStmtPrepare
  | ComStmtExecute
  | ComStmtSendLongData
  | ComStmtClose
  | ComStmtReset
  | ComSetOption
  | ComStmtFetch
  | ComDaemon
  | ComBinlogDumpGtid
  | ComResetConnection
  deriving DecidableEq, Repr

/-- `impl From<u64> for PacketType`: `none` models the
`panic!("Unknown packet type")` on codes outside 0x00..0x1f. -/
def packet_type_from (v : Nat) : Option PacketType :=
  if v = 0x00 then some PacketType.ComSleep
  else if v = 0x01 then some PacketType.ComQuit
  else if v = 0x02 then some PacketType.ComInitDB
  else if v = 0x03 then some PacketType.ComQuery
  else if v = 0x04 then some PacketType.ComFieldList
  else if v = 0x05 then some PacketType.ComCreateDb
  else if v = 0x06 then some PacketType.ComDropDb
  else if v = 0x07 then some PacketType.ComRefresh
  else if v = 0x08 then some PacketType.ComShutdown
  else if v = 0x09 then some PacketType.ComStatistics
  else if v = 0x0a then some PacketType.ComProcessInfo
  else if v = 0x0b then some PacketType.ComConnect
  else if v = 0x0c then some PacketType.ComProcessKill
  else if v = 0x0d then some PacketType.ComDebug
  else if v = 0x0e then some PacketType.ComPing
  else if v = 0x0f then some PacketType.ComTime
  else if v = 0x10 then some PacketType.ComDelayedInsert
  else if v = 0x11 then some PacketType.ComChangeUser
  else if v = 0x12 then some PacketType.ComBinlogDump
  else if v = 0x13 then some PacketType.ComTableDump
  else if v = 0x14 then some PacketType.ComConnectOut
  else if v = 0x15 then some PacketType.ComRegisterSlave
  else if v = 0x16 then some PacketType.ComStmtPrepare
  else if v = 0x17 then some PacketType.ComStmtExecute
  else if v = 0x18 then some PacketType.ComStmtSendLongData
  else if v = 0x19 then some PacketType.ComStmtClose
  else if v = 0x1a then some PacketType.ComStmtReset
  else if v = 0x1b then some PacketType.ComSetOption
  else if v = 0x1c then some PacketType.ComStmtFetch
  else if v = 0x1d then some PacketType.ComDaemon
  else if v = 0x1e then some PacketType.ComBinlogDumpGtid
  else if v = 0x1f then some PacketType.ComResetConnection
  else none

/-- `impl Into<&'static str> for PacketType`, as ASCII bytes. -/
def packet_type_name (t : PacketType) : List Nat :=
  match t with
  | PacketType.ComSleep => strBytes ("COM_SLEEP")
  | PacketType.ComQuit => strBytes ("COM_QUIT")
  | PacketType.ComInitDB => strBytes ("COM_INIT_DB")
  | PacketType.ComQuery => strBytes ("COM_QUERY")
  | PacketType.ComFieldList => strBytes ("COM_FIELD_LIST")
  | PacketType.ComCreateDb => strBytes ("COM_CREATE_DB")
  | PacketType.ComDropDb => strBytes ("COM_DROP_DB")
  | PacketType.ComRefresh => strBytes ("COM_REFRESH")
  | PacketType.ComShutdown => strBytes ("COM_SHUTDOWN")
  | PacketType.ComStatistics => strBytes ("COM_STATISTICS")
  | PacketType.ComProcessInfo => strBytes ("COM_PROCESS_INFO")
  | PacketType.ComConnect => strBytes ("COM_CONNECT")
  | PacketType.ComProcessKill => strBytes ("COM_PROCESS_KILL")
  | PacketType.ComDebug => strBytes ("COM_DEBUG")
  | PacketType.ComPing => strBytes ("COM_PING")
  | PacketType.ComTime => strBytes ("COM_TIME")
  | PacketType.ComDelayedInsert => strBytes ("COM_DELAYED_INSERT")
  | PacketType.ComChangeUser => strBytes ("COM_CHANGE_USER")
  | PacketType.ComBinlogDump => strBytes ("COM_BINLOG_DUMP")
  | PacketType.ComTableDump => strBytes ("COM_TABLE_DUMP")
  | PacketType.ComConnectOut => strBytes ("COM_CONNECT_OUT")
  | PacketType.ComRegisterSlave => strBytes ("COM_REGISTER_SLAVE")
  | PacketType.ComStmtPrepare => strBytes ("COM_STMT_PREPARE")
  | PacketType.ComStmtExecute => strBytes ("COM_STMT_EXECUTE")
  | PacketType.ComStmtSendLongData => strBytes ("COM_STMT_SEND_LONG_DATA")
  | PacketType.ComStmtClose => strBytes ("COM_STMT_CLOSE")
  | PacketType.ComStmtReset => strBytes ("COM_STMT_RESET")
  | PacketType.ComSetOption => strBytes ("COM_SET_OPTION")
  | PacketType.ComStmtFetch => strBytes ("COM_STMT_FETCH")
  | PacketType.ComDaemon => strBytes ("COM_DAEMON")
  | PacketType.ComBinlogDumpGtid => strBytes ("COM_BINLOG_DUMP_GTID")
  | PacketType.ComResetConnection => strBytes ("COM_RESET_CONNECTION")

/-! ### Command parsing (src/proto/packets.rs free functions).
`trim_packet_type` calls `String::from_utf8(data[1..]).unwrap()`: the
unwrap panics when the payload bytes after the command byte are not valid
UTF-8.  `validUtf8` models the UTF-8 validation Rust's
`String::from_utf8` performs (well-formed sequences only: no overlongs, no
surrogates, at most U+10FFFF). -/

/-- A UTF-8 continuation byte: 0x80..0xbf. -/
def utf8Cont (c : Nat) : Bool := decide (0x80 ≤ c ∧ c ≤ 0xbf)

def validUtf8 : List Nat → Bool
  | [] => true
  | b :: rest =>
    if b < 0x80 then validUtf8 rest
    else if 0xc2 ≤ b ∧ b ≤ 0xdf then
      match rest with
      | c1 :: r => utf8Cont c1 && validUtf8 r
      | [] => false
    else if b = 0xe0 then
      match rest with
      | c1 :: c2 :: r => decide (0xa0 ≤ c1 ∧ c1 ≤ 0xbf) && utf8Cont c2 && validUtf8 r
      | _ => false
    else if (0xe1 ≤ b ∧ b ≤ 0xec) ∨ b = 0xee ∨ b = 0xef then
      match rest with
      | c1 :: c2 :: r => utf8Cont c1 && utf8Cont c2 && validUtf8 r
      | _ => false
    else if b = 0xed then
      match rest with
      | c1 :: c2 :: r => decide (0x80 ≤ c1 ∧ c1 ≤ 0x9f) && utf8Cont c2 && validUtf8 r
      | _ => false
    else if b = 0xf0 then
      match rest with
      | c1 :: c2 :: c3 :: r =>
        decide (0x90 ≤ c1 ∧ c1 ≤ 0xbf) && utf8Cont c2 && utf8Cont c3 && validUtf8 r
      | _ => false
    else if 0xf1 ≤ b ∧ b ≤ 0xf3 then
      match rest with
      | c1 :: c2 :: c3 :: r => utf8Cont c1 && utf8Cont c2 && utf8Cont c3 && validUtf8 r
      | _ => false
    else if b = 0xf4 then
      match rest with
      | c1 :: c2 :: c3 :: r =>
        decide (0x80 ≤ c1 ∧ c1 ≤ 0x8f) && utf8Cont c2 && utf8Cont c3 && validUtf8 r
      | _ => false
    else false

/-- `trim_packet_type`: `data[1..]` decoded as UTF-8; `none` models the
`unwrap` panic on invalid UTF-8.  (The slice `data[1..]` itself cannot
panic at the call sites: the dispatcher has already read `data[0]`.) -/
def trim_packet_type (data : List Nat) : Option (List Nat) :=
  let tmp := data.drop 1
  if validUtf8 tmp then some tmp else none

def parse_com_init_db (data : List Nat) : Option (List Nat) :=
  trim_packet_type data

def parse_com_query (data : List Nat) : Option (List Nat) :=
  trim_packet_type data

/-- `parse_set_option`: little-endian u16 from `data[1..]`; a short read is
an io error converted through `From<io::Error>`. -/
def parse_set_option (data : List Nat) : Except ProtoError Nat :=
  match data.drop 1 with
  | a :: b :: _ => Except.ok (a ||| b <<< 8)
  | _ => Except.error ProtoError.Io

/-! ### The command dispatcher (handle_next_command). -/

/-- Outcome of a dispatcher run: a normal return, a ProtoError, or a Rust
panic (index out of bounds, `unwrap` of invalid UTF-8, unknown packet
type). -/
inductive Outcome (α : Type) where
  | ok (a : α)
  | err (e : ProtoError)
  | panic
  deriving DecidableEq, Repr

/-- The user handler, modelled by the segments its `com_query` feeds to the
streaming callback for a given SQL string. -/
def Handler : Type := List Nat → List SqlResult

/-- `handle_next_command`: reset sequence_id, read one ephemeral packet,
dispatch on the command byte.  Returns the final framer (with the emitted
bytes in `out`) and the unread rest of the input stream. -/
def handle_next_command (handler : Handler) (p0 : Packets)
    (status_flags capability : Nat) (input : List Nat) :
    Outcome (Packets × List Nat) :=
  let p := { p0 with sequence_id := 0, capability := capability,
                     status_flags := status_flags }
  match read_ephemeral_packet p.sequence_id input with
  | Except.error e => Outcome.err e
  | Except.ok (data, seq1, rest) =>
    let p := { p with sequence_id := seq1 }
    match data.head? with
    | none => Outcome.panic  -- `data[0]` on an empty payload
    | some pt =>
      match packet_type_from pt with
      | none => Outcome.panic  -- `From<u64>` panics on unknown codes
      | some t =>
        match t with
        | PacketType.ComQuit => Outcome.err ProtoError.ComQuit
        | PacketType.ComInitDB =>
          match parse_com_init_db data with
          | none => Outcome.panic  -- invalid UTF-8
          | some _db => Outcome.ok (p.write_ok_packet 0 0 status_flags 0, rest)
        | PacketType.ComPing => Outcome.ok (p.write_ok_packet 0 0 status_flags 0, rest)
        | PacketType.ComQuery =>
          match parse_com_query data with
          | none => Outcome.panic  -- invalid UTF-8
          | some query =>
            -- multi-statement split is a todo in the source: the statement
            -- list is vec![query] on both sides of the capability test, so
            -- exec_query runs once with more = false
            match exec_query p (handler query) false with
            | none => Outcome.panic
            | some (p1, _results, none) => Outcome.ok (p1, rest)
            | some (_p1, _results, some e) => Outcome.err e
        | PacketType.ComSetOption =>
          match parse_set_option data with
          | Except.ok n =>
            match n with
            | 0 => Outcome.ok
                ({ p with capability :=
                     p.capability ||| CapabilityClientMultiStatements }, rest)
            | 1 => Outcome.ok
                ({ p with capability :=
                     p.capability &&& (4294967295 ^^^ CapabilityClientMultiStatements) }, rest)
            | _ => Outcome.ok
                (p.write_err_packet ERUnknownComError (strBytes ("08S01"))
                  (strBytes ("Unknown set option")), rest)
          | Except.error _ => Outcome.ok
              (p.write_err_packet ERUnknownComError (strBytes ("08S01"))
                (strBytes ("Error parsing set option")), rest)
        | PacketType.ComStmtPrepare => Outcome.ok (p, rest)
        | PacketType.ComStmtExecute => Outcome.ok (p, rest)
        | PacketType.ComStmtReset => Outcome.ok (p, rest)
        | PacketType.ComStmtClose => Outcome.ok (p, rest)
        | other => Outcome.ok
            (p.write_err_packet ERUnknownComError (strBytes ("08S01"))
              (strBytes ("Unknown command: ") ++ packet_type_name other), rest)

/-! ### Dispatcher laws -/

/-- C7: COM_SET_OPTION with option value 0 turns the MULTI_STATEMENTS bit
on and with value 1 turns it off, and any other value produces an ERR
packet with code ERUnknownComError and SQL state 08S01 — but on success
the server writes NO reply at all (the claimed OK-with-EOF-header response
does not exist in the code): in both success cases `out` stays empty. -/
theorem handle_set_option_no_success_reply :
    handle_next_command (fun _ => [])
        { sequence_id := 9, capability := 0, status_flags := 0, out := [] } 0 0
        [3, 0, 0, 0, 0x1b, 0, 0] =
      Outcome.ok ({ sequence_id := 1, capability := CapabilityClientMultiStatements,
                    status_flags := 0, out := [] }, []) ∧
    handle_next_command (fun _ => [])
        { sequence_id := 9, capability := 0, status_flags := 0, out := [] } 0
        CapabilityClientMultiStatements
        [3, 0, 0, 0, 0x1b, 1, 0] =
      Outcome.ok ({ sequence_id := 1, capability := 0, status_flags := 0, out := [] }, []) ∧
    handle_next_command (fun _ => [])
        { sequence_id := 9, capability := 0, status_flags := 0, out := [] } 0 0
        [3, 0, 0, 0, 0x1b, 2, 0] =
      Outcome.ok ({ sequence_id := 2, capability := 0, status_flags := 0,
                    out := [27, 0, 0, 1, 255, 23, 4, 35, 48, 56, 83, 48, 49,
                            85, 110, 107, 110, 111, 119, 110, 32, 115, 101, 116, 32,
                            111, 112, 116, 105, 111, 110] }, []) := by
  refine ⟨by decide, by decide, by decide⟩

/-- C9: a command frame of length zero (header {0,0,0,0} with the correct
sequence byte) makes read_ephemeral_packet return an empty payload — not
an EmptyPacketError — and handle_next_command then indexes byte 0 of the
empty payload, which panics. -/
theorem handle_empty_packet_panics (handler : Handler) (p : Packets)
    (sf cap : Nat) (junk : List Nat) :
    read_ephemeral_packet 0 ([0, 0, 0, 0] ++ junk) = Except.ok ([], 1, junk) ∧
    handle_next_command handler p sf cap ([0, 0, 0, 0] ++ junk) = Outcome.panic := by
  have hread : read_ephemeral_packet 0 ([0, 0, 0, 0] ++ junk) =
      Except.ok ([], 1, junk) := by
    unfold read_ephemeral_packet read_header
    simp
  refine ⟨hread, ?_⟩
  unfold handle_next_command
  simp only [hread, List.head?_nil]

/-- C10: a COM_QUERY (0x03) or COM_INIT_DB (0x02) command whose payload
bytes after the command byte are not valid UTF-8 makes the dispatcher
panic (the String::from_utf8 unwrap in trim_packet_type) instead of
returning an error or writing an ERR packet. -/
theorem handle_invalid_utf8_panics (handler : Handler) (p : Packets)
    (sf cap : Nat) (q junk : List Nat) (hq : validUtf8 q = false)
    (hlen : q.length + 1 ≤ MAX_PACKET_SIZE) :
    handle_next_command handler p sf cap
        (mkHeader (q.length + 1) 0 ++ ((0x03 :: q) ++ junk)) = Outcome.panic ∧
    handle_next_command handler p sf cap
        (mkHeader (q.length + 1) 0 ++ ((0x02 :: q) ++ junk)) = Outcome.panic := by
  have h24 : q.length + 1 < 2 ^ 24 :=
    lt_of_le_of_lt hlen (by decide)
  have hread : ∀ c : Nat, read_ephemeral_packet 0
      (mkHeader (q.length + 1) 0 ++ ((c :: q) ++ junk)) =
      Except.ok (c :: q, 1, junk) := by
    intro c
    have hq1 : (c :: q).length = q.length + 1 := by simp
    have htake : List.take (q.length + 1) (c :: (q ++ junk)) = c :: q := by
      have h2 := @List.take_left' Nat (c :: q) junk (q.length + 1) hq1
      rwa [List.cons_append] at h2
    have hdrop : List.drop (q.length + 1) (c :: (q ++ junk)) = junk := by
      have h2 := @List.drop_left' Nat (c :: q) junk (q.length + 1) hq1
      rwa [List.cons_append] at h2
    unfold read_ephemeral_packet
    rw [read_header_mkHeader 0 (q.length + 1) h24 ((c :: q) ++ junk)]
    dsimp only
    rw [if_neg (by omega), if_neg (by omega)]
    unfold read_content
    rw [if_pos (by simp)]
    simp only [List.cons_append, htake, hdrop]
  constructor
  · unfold handle_next_command
    simp only [hread 0x03, List.head?_cons,
      show packet_type_from 3 = some PacketType.ComQuery from rfl]
    unfold parse_com_query trim_packet_type
    simp [hq]
  · unfold handle_next_command
    simp only [hread 0x02, List.head?_cons,
      show packet_type_from 2 = some PacketType.ComInitDB from rfl]
    unfold parse_com_init_db trim_packet_type
    simp [hq]

/-- Witness for handle_invalid_utf8_panics: the payload byte 0x80 (a lone
continuation byte) is not valid UTF-8. -/
theorem handle_invalid_utf8_panics_witness :
    handle_next_command (fun _ => [])
        { sequence_id := 0, capability := 0, status_flags := 0, out := [] } 0 0
        (mkHeader (([0x80] : List Nat).length + 1) 0 ++ ((0x03 :: [0x80]) ++ [])) =
      Outcome.panic ∧
    handle_next_command (fun _ => [])
        { sequence_id := 0, capability := 0, status_flags := 0, out := [] } 0 0
        (mkHeader (([0x80] : List Nat).length + 1) 0 ++ ((0x02 :: [0x80]) ++ [])) =
      Outcome.panic :=
  handle_invalid_utf8_panics (fun _ => [])
    { sequence_id := 0, capability := 0, status_flags := 0, out := [] } 0 0
    [0x80] [] (by decide) (by decide)

/-! ### Authentication (src/proto/auth.rs) -/

structure Auth where
  character_set : Nat
  max_packet_size : Nat
  capability_flags : Nat
  auth_response : List Nat
  auth_method : List Nat
  database : List Nat
  user : List Nat
  deriving DecidableEq, Repr

/-- `Auth::new`. -/
def Auth.new : Auth :=
  { character_set := 0, max_packet_size := 0, capability_flags := 0,
    auth_response := [], auth_method := [], database := [], user := [] }

/-- Cursor read of one byte (`read_u8`). -/
def readU8 : List Nat → Option (Nat × List Nat)
  | [] => none
  | b :: rest => some (b, rest)

/-- byteorder `read_u32::<LittleEndian>` from a cursor. -/
def readU32le : List Nat → Option (Nat × List Nat)
  | b0 :: b1 :: b2 :: b3 :: rest =>
    some (b0 ||| b1 <<< 8 ||| b2 <<< 16 ||| b3 <<< 24, rest)
  | _ => none

/-- std `BufRead::read_until`: reads up to and including the first
delimiter byte; reads everything when the delimiter is absent. -/
def read_until_byte (b : Nat) : List Nat → List Nat × List Nat
  | [] => ([], [])
  | x :: xs =>
    if x = b then ([x], xs)
    else
      let r := read_until_byte b xs
      (x :: r.1, r.2)

/-- `real_read_until`: append the bytes read (delimiter included) to the
existing buffer, then remove the buffer's last byte when the buffer is
nonempty (this also eats a data byte when no delimiter was found). -/
def real_read_until (old : List Nat) (cur : List Nat) : List Nat × List Nat :=
  let r := read_until_byte 0x00 cur
  let combined := old ++ r.1
  (if combined.isEmpty then combined else combined.dropLast, r.2)

/-- The database / plugin-name / default-method tail of
parse_client_handshake_packet.  The connection-attribute block is consumed
opaquely (a `todo` in the source), so no further cursor state is needed. -/
def parse_db_plugin (a : Auth) (cur : List Nat) : Auth × Option ProtoError :=
  -- Parse database name
  let a1 := if a.capability_flags &&& CapabilityClientConnectWithDB ≠ 0 then
      { a with database := (real_read_until a.database cur).1 }
    else a
  let cur1 := if a.capability_flags &&& CapabilityClientConnectWithDB ≠ 0 then
      (real_read_until a.database cur).2
    else cur
  -- Parse plugin name
  let a2 := if a1.capability_flags &&& CapabilityClientPluginAuth ≠ 0 then
      { a1 with auth_method := (real_read_until a1.auth_method cur1).1 }
    else a1
  -- JDBC sometimes sends an empty auth method but expects native password
  let a3 := if a2.auth_method.isEmpty then
      { a2 with auth_method := strBytes ("mysql_native_password") }
    else a2
  (a3, none)

/-- The auth-response block.  `Cursor::read(&mut buffer[..n])` reads
min(n, remaining) bytes and cannot fail; the copy out of `buffer[..n]`
zero-pads a short read.  The plain branch uses `read_exact` (20 bytes,
whose io error converts to ProtoError::Io) plus one discard byte. -/
def parse_auth_response (a : Auth) (cur : List Nat) : Auth × Option ProtoError :=
  if a.capability_flags &&& CapabilityClientPluginAuthLenencClientData ≠ 0 then
    match readU8 cur with
    | none => (a, some ProtoError.ReadAuthResponseLengthError)
    | some (n, cur1) =>
      let k := min n cur1.length
      parse_db_plugin
        { a with auth_response :=
            a.auth_response ++ (cur1.take k ++ List.replicate (n - k) 0) }
        (cur1.drop k)
  else if a.capability_flags &&& CapabilityClientSecureConnection ≠ 0 then
    match readU8 cur with
    | none => (a, some ProtoError.ReadAuthResponseLengthError)
    | some (n, cur1) =>
      let k := min n cur1.length
      parse_db_plugin
        { a with auth_response :=
            a.auth_response ++ (cur1.take k ++ List.replicate (n - k) 0) }
        (cur1.drop k)
  else
    if cur.length < 20 then (a, some ProtoError.Io)
    else
      let a1 := { a with auth_response := a.auth_response ++ cur.take 20 }
      match readU8 (cur.drop 20) with
      | none => (a1, some ProtoError.ReadAuthResponseError)
      | some (_, cur1) => parse_db_plugin a1 cur1

/-- The stages of parse_client_handshake_packet after the client-flag
block.  Mutations made before a failure are kept, as in the Rust `&mut
self` method. -/
def parse_after_flag (a : Auth) (cur : List Nat) : Auth × Option ProtoError :=
  -- Parse max packet size
  match readU32le cur with
  | none => (a, some ProtoError.ReadMaxPacketSizeError)
  | some (mps, cur1) =>
    let a1 := { a with max_packet_size := mps }
    -- Parse charset
    match readU8 cur1 with
    | none => (a1, some ProtoError.ReadCharsetError)
    | some (cs, cur2) =>
      let a2 := { a1 with character_set := cs }
      -- Read 23 zeros (Cursor::read returns min(23, remaining))
      if cur2.length < 23 then (a2, some ProtoError.ReadZeroError)
      else
        -- Parse user name
        let ru := real_read_until a2.user (cur2.drop 23)
        parse_auth_response { a2 with user := ru.1 } ru.2

/-- `parse_client_handshake_packet`: the full HandshakeResponse41 parse,
returning the final Auth state and the error, if any. -/
def parse_client_handshake_packet (a : Auth) (payload : List Nat) (first : Bool) :
    Auth × Option ProtoError :=
  -- Parse client flag
  match readU32le payload with
  | none => (a, some ProtoError.ReadClientFlagError)
  | some (client_flag, cur) =>
    if client_flag &&& CapabilityClientProtocol41 = 0 then
      (a, some ProtoError.ProtocolNotSupport)
    else
      let a1 := { a with capability_flags := client_flag }
      let a2 := if first then
          { a1 with capability_flags :=
              client_flag &&& (CapabilityClientDeprecateEOF |||
                CapabilityClientFoundRows) }
        else a1
      -- multi statements support
      let a3 := if client_flag &&& CapabilityClientMultiStatements ≠ 0 then
          { a2 with capability_flags :=
              a2.capability_flags ||| CapabilityClientMultiStatements }
        else a2
      parse_after_flag a3 cur

/-! ### Authentication laws -/

theorem parse_db_plugin_capability (a : Auth) (cur : List Nat) :
    (parse_db_plugin a cur).1.capability_flags = a.capability_flags := by
  unfold parse_db_plugin
  dsimp only
  split <;> split <;> split <;> rfl

theorem parse_auth_response_capability (a : Auth) (cur : List Nat) :
    (parse_auth_response a cur).1.capability_flags = a.capability_flags := by
  unfold parse_auth_response
  split
  · split
    · rfl
    · rw [parse_db_plugin_capability]
  · split
    · split
      · rfl
      · rw [parse_db_plugin_capability]
    · split
      · rfl
      · split
        · rfl
        · rw [parse_db_plugin_capability]

theorem parse_after_flag_capability (a : Auth) (cur : List Nat) :
    (parse_after_flag a cur).1.capability_flags = a.capability_flags := by
  unfold parse_after_flag
  split
  · rfl
  · split
    · rfl
    · split
      · rfl
      · rw [parse_auth_response_capability]

/-- C8: parsing a HandshakeResponse41 fails with ProtocolNotSupport when
the PROTOCOL_41 bit is absent from the client flag; otherwise the
resulting effective capability equals the client flag intersected with
(DEPRECATE_EOF | FOUND_ROWS) on the first call and the raw client flag on
a later call, with the MULTI_STATEMENTS bit added whenever the client set
it — the remaining parse stages never touch the capability. -/
theorem parse_client_handshake_capability (a : Auth) (first : Bool)
    (flag : Nat) (cur payload : List Nat)
    (h : readU32le payload = some (flag, cur)) :
    (flag &&& CapabilityClientProtocol41 = 0 →
      parse_client_handshake_packet a payload first =
        (a, some ProtoError.ProtocolNotSupport)) ∧
    (flag &&& CapabilityClientProtocol41 ≠ 0 →
      (parse_client_handshake_packet a payload first).1.capability_flags =
        (let base := if first then
            flag &&& (CapabilityClientDeprecateEOF ||| CapabilityClientFoundRows)
          else flag
         if flag &&& CapabilityClientMultiStatements ≠ 0 then
           base ||| CapabilityClientMultiStatements
         else base)) := by
  constructor
  · intro h41
    unfold parse_client_handshake_packet
    rw [h]
    dsimp only
    rw [if_pos h41]
  · intro h41
    unfold parse_client_handshake_packet
    rw [h]
    dsimp only
    rw [if_neg h41, parse_after_flag_capability]
    by_cases hm : flag &&& CapabilityClientMultiStatements ≠ 0 <;>
      by_cases hf : first <;> simp [hm, hf]

/-- Witness for parse_client_handshake_capability: a 55-byte
HandshakeResponse41 with client flag 0x200 (PROTOCOL_41 only), parsed as
the first call: the effective capability is 0. -/
theorem parse_client_handshake_capability_witness :
    (parse_client_handshake_packet Auth.new
        ([0, 2, 0, 0] ++ [0, 0, 0, 0] ++ [33] ++ List.replicate 23 0 ++
          [117, 0] ++ List.replicate 20 1 ++ [0]) true).1.capability_flags = 0 := by
  have h := (parse_client_handshake_capability Auth.new true 512
    ([0, 0, 0, 0] ++ [33] ++ List.replicate 23 0 ++ [117, 0] ++
      List.replicate 20 1 ++ [0])
    ([0, 2, 0, 0] ++ [0, 0, 0, 0] ++ [33] ++ List.replicate 23 0 ++
      [117, 0] ++ List.replicate 20 1 ++ [0]) (by rfl)).2 (by decide)
  rw [h]
  decide

end SqlProtocol
